import Mathlib

/-!
Verification of the esp-hal time and timer core.

This file embeds, in Lean, the two halves of the core:

* `src/esp-hal/src/time.rs` — `SysUptime`, in particular the esp32 branch of
  `try_now_raw`, which reads the LACT counter via a write-then-poll latch
  protocol over the `lactupdate` / `lactlo` / `lactconfig` / `lacthi`
  registers;
* `src/esp-hal/src/timer/mod.rs` — the `OneShotTimer` and `PeriodicTimer`
  wrappers over the `Timer` hardware-capability trait.

Hardware registers are modelled as oracles: a `LactRegs` value fixes the
value returned by every successive read of `lactlo` after the capture
request, together with the `lacthi` value and the `divider` field of
`lactconfig`.  The `Timer` trait is modelled both as an oracle of query
answers together with a trace of emitted operations (for the blocking
one-shot delay, whose poll loop is embedded with explicit fuel), and as a
small hardware state machine (for the periodic start / wait / cancel state
claims).  The concrete `Timer` implementors (`timg`, `systimer`) are not
part of the sources under verification; where their behaviour is needed it
is modelled from the specification and marked as such.
-/

/-- One hardware-register operation performed by the esp32 LACT latched
read: the capture-request write, a read of the low half, a read of the
divider field of `lactconfig`, or a read of the high half. -/
inductive LactOp
  | updateWrite
  | readLo (v : Nat)
  | readConfig (d : Nat)
  | readHi (v : Nat)
deriving DecidableEq

/-- Oracle for the LACT registers during one call of `try_now_raw`:
`loSeq k` is the raw value produced by the `k`-th read of `lactlo` after
the `lactupdate` write (read `0` is `lo_initial`), `hi` the value of
`lacthi`, and `divider` the divider field of `lactconfig`. -/
structure LactRegs where
  loSeq : Nat → Nat
  hi : Nat
  divider : Nat

/-- Value returned by the `k`-th read of `lactlo` (a 32-bit register). -/
def lactLoRead (r : LactRegs) (k : Nat) : Nat := r.loSeq k % 2 ^ 32

/-- Value returned by reading `lacthi` (a 32-bit register). -/
def lactHiRead (r : LactRegs) : Nat := r.hi % 2 ^ 32

/-- Value returned by reading the `divider` field of `lactconfig`
(a 16-bit field). -/
def lactDivRead (r : LactRegs) : Nat := r.divider % 2 ^ 16

/-- The poll loop of the esp32 branch of `SysUptime::try_now_raw`
(`src/esp-hal/src/time.rs` lines 47–53): read `lactlo`; break with that
value if it differs from `loInitial` or the remaining budget `div` is
zero; otherwise decrement the budget and read again.  `k` is the index of
the next `lactlo` read. -/
def lactPoll (r : LactRegs) (loInitial : Nat) : Nat → Nat → Nat
  | 0, k => lactLoRead r k
  | d + 1, k =>
    if lactLoRead r k ≠ loInitial then lactLoRead r k
    else lactPoll r loInitial d (k + 1)

/-- Number of `lactlo` reads performed by `lactPoll` before it breaks. -/
def lactPollSteps (r : LactRegs) (loInitial : Nat) : Nat → Nat → Nat
  | 0, _ => 1
  | d + 1, k =>
    if lactLoRead r k ≠ loInitial then 1
    else 1 + lactPollSteps r loInitial d (k + 1)

/-- The sequence of register operations performed by the poll loop. -/
def lactPollTrace (r : LactRegs) (loInitial : Nat) : Nat → Nat → List LactOp
  | 0, k => [LactOp.readLo (lactLoRead r k)]
  | d + 1, k =>
    if lactLoRead r k ≠ loInitial then [LactOp.readLo (lactLoRead r k)]
    else LactOp.readLo (lactLoRead r k) :: lactPollTrace r loInitial d (k + 1)

/-- The esp32 branch of `SysUptime::try_now_raw`
(`src/esp-hal/src/time.rs` lines 36–58): write `lactupdate`, read
`lo_initial` from `lactlo`, read the retry budget from the `divider`
field of `lactconfig`, poll `lactlo`, read `lacthi`, and return
`(hi as u64) << 32 | lo as u64` (the error type is `()` and is never
produced). -/
def SysUptime.try_now_raw (r : LactRegs) : Except Unit Nat :=
  let loInitial := lactLoRead r 0
  let div := lactDivRead r
  let lo := lactPoll r loInitial div 1
  let hi := lactHiRead r
  Except.ok ((hi <<< 32) ||| lo)

/-- The sequence of register operations performed by
`SysUptime.try_now_raw` on the esp32 branch, in program order. -/
def SysUptime.try_now_raw_trace (r : LactRegs) : List LactOp :=
  LactOp.updateWrite ::
    LactOp.readLo (lactLoRead r 0) ::
      LactOp.readConfig (lactDivRead r) ::
        (lactPollTrace r (lactLoRead r 0) (lactDivRead r) 1 ++
          [LactOp.readHi (lactHiRead r)])

/-- Recogniser for the high-half read among `LactOp` operations. -/
def LactOp.isReadHi : LactOp → Bool
  | LactOp.readHi _ => true
  | _ => false

/-- `TickMeasure` (`fugit::Instant`/`Duration` at a fixed frequency):
a wrapper around the raw 64-bit tick count. -/
structure TickMeasure where
  ticks : Nat
deriving DecidableEq

/-- `TickMeasure::from_ticks`. -/
def TickMeasure.from_ticks (t : Nat) : TickMeasure := ⟨t⟩

/-- `SysUptime::try_now` (`src/esp-hal/src/time.rs` lines 69–73):
propagate any error of `try_now_raw`, otherwise wrap the ticks with
`from_ticks`. -/
def SysUptime.try_now (r : LactRegs) : Except Unit TickMeasure :=
  match SysUptime.try_now_raw r with
  | Except.error e => Except.error e
  | Except.ok ticks => Except.ok (TickMeasure.from_ticks ticks)

/-- `SysUptime::current_time` (`src/esp-hal/src/time.rs` lines 100–104):
`self.try_now().unwrap()`; `none` marks the panic of `unwrap` on an
error. -/
def SysUptime.current_time (r : LactRegs) : Option TickMeasure :=
  match SysUptime.try_now r with
  | Except.ok v => some v
  | Except.error _ => none

/-- Modelled from the spec: `SystemTimer::now()` (the `systimer` module is
not under the verified sources).  The direct strategy reads the wide
free-running counter register as a single 64-bit value; no race is
possible and the read cannot fail. -/
def SystemTimer.now (counter : Nat) : Nat := counter % 2 ^ 64

/-- The non-esp32 branch of `SysUptime::try_now_raw`
(`src/esp-hal/src/time.rs` lines 60–64): delegate to
`SystemTimer::now()` and return `Ok`. -/
def SysUptime.try_now_raw_direct (counter : Nat) : Except Unit Nat :=
  Except.ok (SystemTimer.now counter)

theorem lactPollSteps_pos (r : LactRegs) (i : Nat) :
    ∀ d k, 1 ≤ lactPollSteps r i d k := by
  intro d
  induction d with
  | zero => intro k; simp [lactPollSteps]
  | succ d ih =>
    intro k
    simp only [lactPollSteps]
    split
    · exact Nat.le_refl 1
    · have := ih (k + 1); omega

theorem lactPollSteps_le (r : LactRegs) (i : Nat) :
    ∀ d k, lactPollSteps r i d k ≤ d + 1 := by
  intro d
  induction d with
  | zero => intro k; simp [lactPollSteps]
  | succ d ih =>
    intro k
    simp only [lactPollSteps]
    split
    · omega
    · have := ih (k + 1); omega

theorem lactPoll_eq_read (r : LactRegs) (i : Nat) :
    ∀ d k, lactPoll r i d k = lactLoRead r (k + lactPollSteps r i d k - 1) := by
  intro d
  induction d with
  | zero => intro k; simp [lactPoll, lactPollSteps]
  | succ d ih =>
    intro k
    simp only [lactPoll, lactPollSteps]
    split
    · simp
    · rw [ih (k + 1)]
      have h1 := lactPollSteps_pos r i d (k + 1)
      have : k + 1 + lactPollSteps r i d (k + 1) - 1
          = k + (1 + lactPollSteps r i d (k + 1)) - 1 := by omega
      rw [this]

theorem lactPoll_unchanged (r : LactRegs) (i : Nat) :
    ∀ d k j, k ≤ j → j + 1 < k + lactPollSteps r i d k → lactLoRead r j = i := by
  intro d
  induction d with
  | zero =>
    intro k j hkj hlt
    simp [lactPollSteps] at hlt
    omega
  | succ d ih =>
    intro k j hkj hlt
    simp only [lactPollSteps] at hlt
    by_cases hc : lactLoRead r k ≠ i
    · rw [if_pos hc] at hlt; omega
    · rw [if_neg hc] at hlt
      push_neg at hc
      rcases Nat.eq_or_lt_of_le hkj with heq | hlt'
      · exact heq ▸ hc
      · exact ih (k + 1) j hlt' (by omega)

theorem lactPoll_stop_reason (r : LactRegs) (i : Nat) :
    ∀ d k, lactLoRead r (k + lactPollSteps r i d k - 1) ≠ i
      ∨ lactPollSteps r i d k = d + 1 := by
  intro d
  induction d with
  | zero => intro k; right; simp [lactPollSteps]
  | succ d ih =>
    intro k
    simp only [lactPollSteps]
    by_cases hc : lactLoRead r k ≠ i
    · left; rw [if_pos hc]; simpa using hc
    · rw [if_neg hc]
      rcases ih (k + 1) with hne | heq
      · left
        have h1 := lactPollSteps_pos r i d (k + 1)
        have : k + (1 + lactPollSteps r i d (k + 1)) - 1
            = k + 1 + lactPollSteps r i d (k + 1) - 1 := by omega
        rw [this]
        exact hne
      · right; omega

theorem lactPollTrace_eq (r : LactRegs) (i : Nat) :
    ∀ d k, lactPollTrace r i d k
      = (List.range' k (lactPollSteps r i d k)).map
          fun j => LactOp.readLo (lactLoRead r j) := by
  intro d
  induction d with
  | zero => intro k; simp [lactPollTrace, lactPollSteps, List.range'_one]
  | succ d ih =>
    intro k
    simp only [lactPollTrace, lactPollSteps]
    split
    · simp [List.range'_one]
    · rw [ih (k + 1)]
      have h1 := lactPollSteps_pos r i d (k + 1)
      have : 1 + lactPollSteps r i d (k + 1)
          = lactPollSteps r i d (k + 1) + 1 := by omega
      rw [this, List.range'_succ]
      simp

/-- Number of `lactlo` reads performed inside the poll loop of one call of
`SysUptime.try_now_raw` (whose loop starts at read index `1` with the
budget read from `lactconfig`). -/
def lactReadSteps (r : LactRegs) : Nat :=
  lactPollSteps r (lactLoRead r 0) (lactDivRead r) 1

/-- C1: the latched-strategy raw tick read terminates for every possible
sequence of hardware register values: the poll loop of the esp32 branch of
`SysUptime::try_now_raw` performs at least one and at most
`divider + 1` reads of `lactlo` — the retry budget taken from the divider
field of `lactconfig` — even if the low-half value never changes from the
pre-capture reading. -/
theorem lact_poll_terminates_within_budget (r : LactRegs) :
    1 ≤ lactReadSteps r ∧ lactReadSteps r ≤ lactDivRead r + 1 :=
  ⟨lactPollSteps_pos r (lactLoRead r 0) (lactDivRead r) 1,
   lactPollSteps_le r (lactLoRead r 0) (lactDivRead r) 1⟩

theorem try_now_raw_trace_concat (r : LactRegs) :
    SysUptime.try_now_raw_trace r
      = (LactOp.updateWrite :: LactOp.readLo (lactLoRead r 0)
          :: LactOp.readConfig (lactDivRead r)
          :: lactPollTrace r (lactLoRead r 0) (lactDivRead r) 1)
        ++ [LactOp.readHi (lactHiRead r)] := by
  simp [SysUptime.try_now_raw_trace]

/-- C2: in the latched strategy, `SysUptime::try_now_raw` issues the
capture request, records the low-half value immediately after the request
(the second operation of its trace is the read of `lactlo` index `0`),
polls the low half until it differs from that pre-capture reading or the
retry budget is exhausted — all intermediate reads equal the pre-capture
value, and the last read differs or the budget is spent — reads the high
half exactly once, as the final operation after the loop, and returns
`(high <<< 32) ||| low` where `low` is the last low-half value read in the
loop. -/
theorem lact_try_now_raw_latched_protocol (r : LactRegs) :
    SysUptime.try_now_raw r
      = Except.ok ((lactHiRead r <<< 32) ||| lactLoRead r (lactReadSteps r))
    ∧ ((List.range' 1 (lactReadSteps r - 1)).all
        fun j => lactLoRead r j == lactLoRead r 0) = true
    ∧ (lactLoRead r (lactReadSteps r) ≠ lactLoRead r 0
        ∨ lactReadSteps r = lactDivRead r + 1)
    ∧ SysUptime.try_now_raw_trace r
      = LactOp.updateWrite :: LactOp.readLo (lactLoRead r 0)
          :: LactOp.readConfig (lactDivRead r)
          :: (((List.range' 1 (lactReadSteps r)).map
                fun j => LactOp.readLo (lactLoRead r j))
              ++ [LactOp.readHi (lactHiRead r)])
    ∧ (SysUptime.try_now_raw_trace r).countP LactOp.isReadHi = 1
    ∧ (SysUptime.try_now_raw_trace r).getLast?
      = some (LactOp.readHi (lactHiRead r)) := by
  have hpos := lactPollSteps_pos r (lactLoRead r 0) (lactDivRead r) 1
  have hread := lactPoll_eq_read r (lactLoRead r 0) (lactDivRead r) 1
  have htr := lactPollTrace_eq r (lactLoRead r 0) (lactDivRead r) 1
  refine ⟨?_, ?_, ?_, ?_, ?_, ?_⟩
  · have hidx : 1 + lactPollSteps r (lactLoRead r 0) (lactDivRead r) 1 - 1
        = lactReadSteps r := by unfold lactReadSteps; omega
    simp only [SysUptime.try_now_raw, hread, hidx]
  · rw [List.all_eq_true]
    intro j hj
    rw [List.mem_range'_1] at hj
    have := lactPoll_unchanged r (lactLoRead r 0) (lactDivRead r) 1 j hj.1
      (by unfold lactReadSteps at hj; omega)
    simpa using this
  · have := lactPoll_stop_reason r (lactLoRead r 0) (lactDivRead r) 1
    rcases this with hne | heq
    · left
      have : 1 + lactPollSteps r (lactLoRead r 0) (lactDivRead r) 1 - 1
          = lactReadSteps r := by unfold lactReadSteps; omega
      rwa [this] at hne
    · right; exact heq
  · simp only [SysUptime.try_now_raw_trace, htr, lactReadSteps]
  · rw [try_now_raw_trace_concat, List.countP_append, List.countP_cons,
      List.countP_cons, List.countP_cons, htr, List.countP_map]
    have : (List.countP (LactOp.isReadHi ∘ fun j => LactOp.readLo (lactLoRead r j))
        (List.range' 1 (lactPollSteps r (lactLoRead r 0) (lactDivRead r) 1))) = 0 := by
      rw [List.countP_eq_zero]
      intro a _
      simp [LactOp.isReadHi]
    rw [this]
    simp [LactOp.isReadHi, List.countP_cons]
  · rw [try_now_raw_trace_concat, List.getLast?_concat]

/-- C9: `SysUptime::try_now_raw` (both the latched esp32 branch and the
direct branch) and `SysUptime::try_now` never fail — for every hardware
register state they return `Ok`, the `()` error channel is never
populated — `try_now` returns exactly `TickMeasure::from_ticks` of the
value of `try_now_raw`, and the deprecated `current_time` accessor, which
unwraps `try_now`, never reaches the panic branch of `unwrap`. -/
theorem sys_uptime_reads_infallible (r : LactRegs) (c : Nat) :
    (∃ v, SysUptime.try_now_raw r = Except.ok v
      ∧ SysUptime.try_now r = Except.ok (TickMeasure.from_ticks v)
      ∧ SysUptime.current_time r = some (TickMeasure.from_ticks v))
    ∧ SysUptime.try_now_raw_direct c = Except.ok (SystemTimer.now c) :=
  ⟨⟨(lactHiRead r <<< 32) ||| lactPoll r (lactLoRead r 0) (lactDivRead r) 1,
    rfl, rfl, rfl⟩, rfl⟩

/-- One operation of the `Timer` hardware-capability trait
(`src/esp-hal/src/timer/mod.rs` lines 23–56), with the answer the
hardware returned for the two queries. -/
inductive TimerOp
  | start
  | stop
  | reset
  | isRunning (b : Bool)
  | loadValue (us : Nat)
  | enableAutoReload (b : Bool)
  | enableInterrupt (b : Bool)
  | clearInterrupt
  | isInterruptSet (b : Bool)
  | setAlarmActive (b : Bool)
deriving DecidableEq

/-- The busy-poll loop `while !self.inner.is_interrupt_set() {}` of
`OneShotTimer::delay` (`src/esp-hal/src/timer/mod.rs` lines 99–101),
embedded with explicit fuel: `intr k` is the answer of the `k`-th
`is_interrupt_set` query after the timer was started.  Returns the
queries the loop performed, or `none` if the fuel ran out before a
`true` answer was observed. -/
def pollIntrFuel (intr : Nat → Bool) : Nat → Nat → Option (List TimerOp)
  | 0, _ => none
  | fuel + 1, k =>
    if intr k then some [TimerOp.isInterruptSet true]
    else Option.map (fun t => TimerOp.isInterruptSet false :: t)
      (pollIntrFuel intr fuel (k + 1))

/-- `OneShotTimer::delay` (`src/esp-hal/src/timer/mod.rs` lines 87–105):
stop if running, clear the interrupt, reset, disable auto-reload, load
the duration, start, busy-poll `is_interrupt_set`, then stop and clear
the interrupt.  `running` is the answer of the initial `is_running`
query; the result is the trace of trait operations in program order, or
`none` if the fuel for the busy-poll ran out. -/
def OneShotTimer.delay (running : Bool) (intr : Nat → Bool) (fuel us : Nat) :
    Option (List TimerOp) :=
  let pre := if running
    then [TimerOp.isRunning true, TimerOp.stop]
    else [TimerOp.isRunning false]
  match pollIntrFuel intr fuel 0 with
  | none => none
  | some poll => some (pre
      ++ [TimerOp.clearInterrupt, TimerOp.reset,
          TimerOp.enableAutoReload false, TimerOp.loadValue us, TimerOp.start]
      ++ poll
      ++ [TimerOp.stop, TimerOp.clearInterrupt])

/-- `OneShotTimer::delay_micros` (`src/esp-hal/src/timer/mod.rs` lines
78–80): `self.delay((us as u64).micros())`. -/
def OneShotTimer.delay_micros (running : Bool) (intr : Nat → Bool)
    (fuel us : Nat) : Option (List TimerOp) :=
  OneShotTimer.delay running intr fuel us

/-- `OneShotTimer::delay_nanos` (`src/esp-hal/src/timer/mod.rs` lines
83–85): `self.delay((ns as u64 / 1000).micros())` — truncating division
of the nanosecond request by 1000. -/
def OneShotTimer.delay_nanos (running : Bool) (intr : Nat → Bool)
    (fuel ns : Nat) : Option (List TimerOp) :=
  OneShotTimer.delay running intr fuel (ns / 1000)

/-- Modelled from the spec: the observable state of a hardware timer
behind the `Timer` capability (spec sections 3 and 6).  The concrete
implementors (`timg`, `systimer`) are not under the verified sources;
this state machine gives each capability operation its documented
effect on exactly one field. -/
structure HwState where
  running : Bool
  interruptFlag : Bool
  count : Nat
  autoReload : Bool
  alarmActive : Bool
  loaded : Nat
deriving DecidableEq

/-- Modelled from the spec: `Timer::start` sets the timer counting. -/
def hwStart (s : HwState) : HwState := { s with running := true }

/-- Modelled from the spec: `Timer::stop` stops the timer. -/
def hwStop (s : HwState) : HwState := { s with running := false }

/-- Modelled from the spec: `Timer::reset` resets the count to zero. -/
def hwReset (s : HwState) : HwState := { s with count := 0 }

/-- Modelled from the spec: `Timer::load_value` loads a target value. -/
def hwLoadValue (v : Nat) (s : HwState) : HwState := { s with loaded := v }

/-- Modelled from the spec: `Timer::enable_auto_reload`. -/
def hwEnableAutoReload (b : Bool) (s : HwState) : HwState :=
  { s with autoReload := b }

/-- Modelled from the spec: `Timer::clear_interrupt` clears the
interrupt flag. -/
def hwClearInterrupt (s : HwState) : HwState :=
  { s with interruptFlag := false }

/-- Modelled from the spec: `Timer::set_alarm_active` sets the alarm
line. -/
def hwSetAlarmActive (b : Bool) (s : HwState) : HwState :=
  { s with alarmActive := b }

/-- `PeriodicTimer::start` (`src/esp-hal/src/timer/mod.rs` lines
156–167) as a transformer of the modelled hardware state, also emitting
the trace of capability operations in program order: stop if running,
clear the interrupt, reset, enable auto-reload, load the timeout,
start. -/
def PeriodicTimer.start (timeout : Nat) (s : HwState) :
    HwState × List TimerOp :=
  let pre := if s.running
    then (hwStop s, [TimerOp.isRunning true, TimerOp.stop])
    else (s, [TimerOp.isRunning false])
  (hwStart (hwLoadValue timeout (hwEnableAutoReload true
      (hwReset (hwClearInterrupt pre.1)))),
   pre.2 ++ [TimerOp.clearInterrupt, TimerOp.reset,
     TimerOp.enableAutoReload true, TimerOp.loadValue timeout,
     TimerOp.start])

/-- The arming phase of `OneShotTimer::delay`
(`src/esp-hal/src/timer/mod.rs` lines 88–97, everything before the
busy-poll) as a transformer of the modelled hardware state with its
operation trace: identical to `PeriodicTimer::start` except that
auto-reload is disabled. -/
def OneShotTimer.delayArm (us : Nat) (s : HwState) :
    HwState × List TimerOp :=
  let pre := if s.running
    then (hwStop s, [TimerOp.isRunning true, TimerOp.stop])
    else (s, [TimerOp.isRunning false])
  (hwStart (hwLoadValue us (hwEnableAutoReload false
      (hwReset (hwClearInterrupt pre.1)))),
   pre.2 ++ [TimerOp.clearInterrupt, TimerOp.reset,
     TimerOp.enableAutoReload false, TimerOp.loadValue us,
     TimerOp.start])

/-- The error of the non-blocking `nb::Result` used by
`PeriodicTimer::wait`. -/
inductive NbError
  | wouldBlock
deriving DecidableEq

/-- The `Error` enum of `src/esp-hal/src/timer/mod.rs` lines 13–20. -/
inductive TimerError
  | TimerActive
  | TimerInactive
  | AlarmInactive
deriving DecidableEq

/-- `PeriodicTimer::wait` (`src/esp-hal/src/timer/mod.rs` lines
170–179): if the interrupt flag is set, clear it, set the alarm line
active and return `Ok`; otherwise return `WouldBlock`.  Returns the
result, the new hardware state and the trace of capability
operations. -/
def PeriodicTimer.wait (s : HwState) :
    Except NbError Unit × HwState × List TimerOp :=
  if s.interruptFlag then
    (Except.ok (), hwSetAlarmActive true (hwClearInterrupt s),
     [TimerOp.isInterruptSet true, TimerOp.clearInterrupt,
      TimerOp.setAlarmActive true])
  else
    (Except.error NbError.wouldBlock, s, [TimerOp.isInterruptSet false])

/-- `PeriodicTimer::cancel` (`src/esp-hal/src/timer/mod.rs` lines
182–190): return `TimerInactive` if the timer is not running, otherwise
stop it and return `Ok`. -/
def PeriodicTimer.cancel (s : HwState) :
    Except TimerError Unit × HwState × List TimerOp :=
  if !s.running then
    (Except.error TimerError.TimerInactive, s, [TimerOp.isRunning false])
  else
    (Except.ok (), hwStop s, [TimerOp.isRunning true, TimerOp.stop])

/-- Flips the argument of an `enableAutoReload` operation and leaves
every other capability operation unchanged. -/
def flipReload : TimerOp → TimerOp
  | TimerOp.enableAutoReload b => TimerOp.enableAutoReload (!b)
  | op => op

/-- C4: `PeriodicTimer::cancel` returns `Err(TimerInactive)` if and only
if the underlying timer's `is_running` reports `false` at the time of the
call; in that case it performs no other hardware operation and the timer
state is unchanged, and when `is_running` reports `true` it calls `stop`
and returns `Ok`, so a second immediate cancel on a timer that was
running returns `TimerInactive`. -/
theorem periodic_cancel_iff_running (s : HwState) :
    ((PeriodicTimer.cancel s).1 = Except.error TimerError.TimerInactive
      ↔ s.running = false)
    ∧ (s.running = false → (PeriodicTimer.cancel s).2.1 = s
        ∧ (PeriodicTimer.cancel s).2.2 = [TimerOp.isRunning false])
    ∧ (s.running = true → (PeriodicTimer.cancel s).1 = Except.ok ()
        ∧ (PeriodicTimer.cancel s).2.2 = [TimerOp.isRunning true, TimerOp.stop]
        ∧ (PeriodicTimer.cancel (PeriodicTimer.cancel s).2.1).1
            = Except.error TimerError.TimerInactive) := by
  cases hr : s.running <;> simp [PeriodicTimer.cancel, hwStop, hr]

/-- Witness for C4 at a concrete running timer state. -/
theorem periodic_cancel_iff_running_witness :
    ({ running := true, interruptFlag := true, count := 5,
       autoReload := false, alarmActive := false, loaded := 7 } : HwState).running
      = true
    ∧ (PeriodicTimer.cancel (PeriodicTimer.cancel
        { running := true, interruptFlag := true, count := 5,
          autoReload := false, alarmActive := false, loaded := 7 }).2.1).1
      = Except.error TimerError.TimerInactive :=
  ⟨rfl,
   ((periodic_cancel_iff_running
      { running := true, interruptFlag := true, count := 5,
        autoReload := false, alarmActive := false, loaded := 7 }).2.2
      rfl).2.2⟩

/-- C5: `PeriodicTimer::wait` is non-blocking and returns `Ok` exactly
when the interrupt flag is set, in which case it clears the interrupt and
calls `set_alarm_active(true)`; when the flag is not set it returns
`WouldBlock`, leaves the hardware state unchanged and performs no
operation other than the flag query. -/
theorem periodic_wait_flag_spec (s : HwState) :
    ((PeriodicTimer.wait s).1 = Except.ok () ↔ s.interruptFlag = true)
    ∧ (s.interruptFlag = true →
        (PeriodicTimer.wait s).2.1
          = { s with interruptFlag := false, alarmActive := true }
        ∧ (PeriodicTimer.wait s).2.2
          = [TimerOp.isInterruptSet true, TimerOp.clearInterrupt,
             TimerOp.setAlarmActive true])
    ∧ (s.interruptFlag = false →
        (PeriodicTimer.wait s).1 = Except.error NbError.wouldBlock
        ∧ (PeriodicTimer.wait s).2.1 = s
        ∧ (PeriodicTimer.wait s).2.2 = [TimerOp.isInterruptSet false]) := by
  cases hf : s.interruptFlag <;>
    simp [PeriodicTimer.wait, hwClearInterrupt, hwSetAlarmActive, hf]

/-- Witness for C5 at concrete states with the flag set and unset. -/
theorem periodic_wait_flag_spec_witness :
    (PeriodicTimer.wait
        { running := true, interruptFlag := true, count := 2,
          autoReload := true, alarmActive := false, loaded := 3 }).2.1
      = { running := true, interruptFlag := false, count := 2,
          autoReload := true, alarmActive := true, loaded := 3 }
    ∧ (PeriodicTimer.wait
        { running := true, interruptFlag := false, count := 2,
          autoReload := true, alarmActive := false, loaded := 3 }).1
      = Except.error NbError.wouldBlock :=
  ⟨((periodic_wait_flag_spec
      { running := true, interruptFlag := true, count := 2,
        autoReload := true, alarmActive := false, loaded := 3 }).2.1 rfl).1,
   ((periodic_wait_flag_spec
      { running := true, interruptFlag := false, count := 2,
        autoReload := true, alarmActive := false, loaded := 3 }).2.2 rfl).1⟩

/-- C8: for every timeout, `PeriodicTimer::start` performs the same
stop-if-running / clear_interrupt / reset / load_value / start sequence
as the arming phase of `OneShotTimer::delay`, differing only in calling
`enable_auto_reload(true)` instead of `false`; consequently calling
`start` on an already-running timer first stops it, resets the count to
zero, loads the new timeout and restarts. -/
theorem periodic_start_same_as_arm_with_reload (s : HwState) (t : Nat) :
    (PeriodicTimer.start t s).2
      = ((OneShotTimer.delayArm t s).2).map flipReload
    ∧ (PeriodicTimer.start t s).1
      = { running := true, interruptFlag := false, count := 0,
          autoReload := true, alarmActive := s.alarmActive, loaded := t }
    ∧ (s.running = true →
        (PeriodicTimer.start t s).2
          = [TimerOp.isRunning true, TimerOp.stop, TimerOp.clearInterrupt,
             TimerOp.reset, TimerOp.enableAutoReload true,
             TimerOp.loadValue t, TimerOp.start]) := by
  cases hr : s.running <;>
    simp [PeriodicTimer.start, OneShotTimer.delayArm, flipReload, hwStart,
      hwStop, hwReset, hwClearInterrupt, hwEnableAutoReload, hwLoadValue, hr]

/-- Witness for C8 at a concrete running timer state. -/
theorem periodic_start_same_as_arm_with_reload_witness :
    ({ running := true, interruptFlag := true, count := 9,
       autoReload := false, alarmActive := true, loaded := 4 } : HwState).running
      = true
    ∧ (PeriodicTimer.start 11
        { running := true, interruptFlag := true, count := 9,
          autoReload := false, alarmActive := true, loaded := 4 }).2
      = [TimerOp.isRunning true, TimerOp.stop, TimerOp.clearInterrupt,
         TimerOp.reset, TimerOp.enableAutoReload true, TimerOp.loadValue 11,
         TimerOp.start] :=
  ⟨rfl,
   (periodic_start_same_as_arm_with_reload
      { running := true, interruptFlag := true, count := 9,
        autoReload := false, alarmActive := true, loaded := 4 } 11).2.2 rfl⟩

/-- C10: a successful `PeriodicTimer::cancel` calls only `stop` after the
running query — it leaves the interrupt flag, count, auto-reload, alarm
line and loaded value unchanged (only the running bit drops) — and
`PeriodicTimer::wait` inspects only the interrupt flag, never the running
state, so if the flag was set at the moment of a successful cancel a
subsequent `wait` on the stopped timer still returns `Ok`. -/
theorem periodic_cancel_only_stops (s : HwState) (h : s.running = true) :
    (PeriodicTimer.cancel s).2.1 = { s with running := false }
    ∧ (PeriodicTimer.cancel s).2.2 = [TimerOp.isRunning true, TimerOp.stop]
    ∧ (PeriodicTimer.wait (PeriodicTimer.cancel s).2.1).1
      = (PeriodicTimer.wait s).1
    ∧ (s.interruptFlag = true →
        (PeriodicTimer.wait (PeriodicTimer.cancel s).2.1).1 = Except.ok ()) := by
  cases hf : s.interruptFlag <;>
    simp [PeriodicTimer.cancel, PeriodicTimer.wait, hwStop, hwClearInterrupt,
      hwSetAlarmActive, h, hf]

/-- Witness for C10 at a concrete running state with the flag set. -/
theorem periodic_cancel_only_stops_witness :
    (PeriodicTimer.cancel
        { running := true, interruptFlag := true, count := 1,
          autoReload := true, alarmActive := false, loaded := 6 }).2.1
      = { running := false, interruptFlag := true, count := 1,
          autoReload := true, alarmActive := false, loaded := 6 }
    ∧ (PeriodicTimer.wait (PeriodicTimer.cancel
        { running := true, interruptFlag := true, count := 1,
          autoReload := true, alarmActive := false, loaded := 6 }).2.1).1
      = Except.ok () :=
  ⟨(periodic_cancel_only_stops
      { running := true, interruptFlag := true, count := 1,
        autoReload := true, alarmActive := false, loaded := 6 } rfl).1,
   (periodic_cancel_only_stops
      { running := true, interruptFlag := true, count := 1,
        autoReload := true, alarmActive := false, loaded := 6 } rfl).2.2.2 rfl⟩

theorem pollIntrFuel_some (intr : Nat → Bool) :
    ∀ fuel k tr, pollIntrFuel intr fuel k = some tr →
      ∃ n, intr (k + n) = true ∧ (∀ i, i < n → intr (k + i) = false)
        ∧ tr = List.replicate n (TimerOp.isInterruptSet false)
            ++ [TimerOp.isInterruptSet true] := by
  intro fuel
  induction fuel with
  | zero => intro k tr h; simp [pollIntrFuel] at h
  | succ fuel ih =>
    intro k tr h
    simp only [pollIntrFuel] at h
    by_cases hc : intr k
    · rw [if_pos hc] at h
      refine ⟨0, by simpa using hc, by omega, ?_⟩
      simpa using h.symm
    · rw [if_neg hc] at h
      rcases Option.map_eq_some'.mp h with ⟨tr', htr', hcons⟩
      obtain ⟨n, h1, h2, h3⟩ := ih (k + 1) tr' htr'
      refine ⟨n + 1, ?_, ?_, ?_⟩
      · have : k + (n + 1) = k + 1 + n := by omega
        rw [this]; exact h1
      · intro i hi
        match i with
        | 0 => simpa using Bool.not_eq_true (intr k) ▸ hc
        | i + 1 =>
          have : k + (i + 1) = k + 1 + i := by omega
          rw [this]; exact h2 i (by omega)
      · rw [← hcons, h3, List.replicate_succ]
        simp

theorem pollIntrFuel_none (intr : Nat → Bool) (hall : ∀ n, intr n = false) :
    ∀ fuel k, pollIntrFuel intr fuel k = none := by
  intro fuel
  induction fuel with
  | zero => intro k; rfl
  | succ fuel ih => intro k; simp [pollIntrFuel, hall, ih]

/-- C6: for every duration, a terminating run of `OneShotTimer::delay`
performs exactly the sequence `stop` only if `is_running` reported
`true`, then `clear_interrupt`, `reset`, `enable_auto_reload(false)`,
`load_value(duration)`, `start`, then `is_interrupt_set` queries that
answer `false` until the first `true`, and finally `stop` followed by
`clear_interrupt`, leaving the hardware idle for reuse. -/
theorem one_shot_delay_op_sequence (running : Bool) (intr : Nat → Bool)
    (fuel us : Nat) (tr : List TimerOp)
    (h : OneShotTimer.delay running intr fuel us = some tr) :
    ∃ n, intr n = true ∧ (∀ i, i < n → intr i = false)
      ∧ tr = (if running then [TimerOp.isRunning true, TimerOp.stop]
              else [TimerOp.isRunning false])
          ++ [TimerOp.clearInterrupt, TimerOp.reset,
              TimerOp.enableAutoReload false, TimerOp.loadValue us,
              TimerOp.start]
          ++ List.replicate n (TimerOp.isInterruptSet false)
          ++ [TimerOp.isInterruptSet true, TimerOp.stop,
              TimerOp.clearInterrupt] := by
  simp only [OneShotTimer.delay] at h
  cases hp : pollIntrFuel intr fuel 0 with
  | none => rw [hp] at h; simp at h
  | some poll =>
    rw [hp] at h
    obtain ⟨n, h1, h2, h3⟩ := pollIntrFuel_some intr fuel 0 poll hp
    refine ⟨n, by simpa using h1, fun i hi => by simpa using h2 i hi, ?_⟩
    simp only [Option.some.injEq] at h
    rw [← h, h3]
    simp

/-- Witness for C6: a concrete run whose flag answers `false` then
`true`, with its full operation trace. -/
theorem one_shot_delay_op_sequence_witness :
    OneShotTimer.delay false (fun k => k == 1) 3 9
      = some [TimerOp.isRunning false, TimerOp.clearInterrupt, TimerOp.reset,
          TimerOp.enableAutoReload false, TimerOp.loadValue 9, TimerOp.start,
          TimerOp.isInterruptSet false, TimerOp.isInterruptSet true,
          TimerOp.stop, TimerOp.clearInterrupt]
    ∧ ∃ n, (fun k => k == 1) n = true
        ∧ (∀ i, i < n → (fun k => k == 1) i = false)
        ∧ ([TimerOp.isRunning false, TimerOp.clearInterrupt, TimerOp.reset,
            TimerOp.enableAutoReload false, TimerOp.loadValue 9,
            TimerOp.start, TimerOp.isInterruptSet false,
            TimerOp.isInterruptSet true, TimerOp.stop,
            TimerOp.clearInterrupt] : List TimerOp)
          = (if false then [TimerOp.isRunning true, TimerOp.stop]
             else [TimerOp.isRunning false])
            ++ [TimerOp.clearInterrupt, TimerOp.reset,
                TimerOp.enableAutoReload false, TimerOp.loadValue 9,
                TimerOp.start]
            ++ List.replicate n (TimerOp.isInterruptSet false)
            ++ [TimerOp.isInterruptSet true, TimerOp.stop,
                TimerOp.clearInterrupt] :=
  ⟨rfl,
   one_shot_delay_op_sequence false (fun k => k == 1) 3 9
     [TimerOp.isRunning false, TimerOp.clearInterrupt, TimerOp.reset,
      TimerOp.enableAutoReload false, TimerOp.loadValue 9, TimerOp.start,
      TimerOp.isInterruptSet false, TimerOp.isInterruptSet true,
      TimerOp.stop, TimerOp.clearInterrupt] rfl⟩

/-- C7: `OneShotTimer::delay` never returns while the interrupt flag
reads `false` — a terminating run has observed `is_interrupt_set` answer
`true` — and the wait has no timeout or retry bound: if the flag never
becomes set, the call does not return for any amount of fuel. -/
theorem one_shot_delay_waits_for_flag :
    (∀ (running : Bool) (intr : Nat → Bool) (fuel us : Nat)
        (tr : List TimerOp),
      OneShotTimer.delay running intr fuel us = some tr →
        TimerOp.isInterruptSet true ∈ tr)
    ∧ (∀ (running : Bool) (intr : Nat → Bool) (fuel us : Nat),
      (∀ n, intr n = false) →
        OneShotTimer.delay running intr fuel us = none) := by
  constructor
  · intro running intr fuel us tr h
    simp only [OneShotTimer.delay] at h
    cases hp : pollIntrFuel intr fuel 0 with
    | none => rw [hp] at h; simp at h
    | some poll =>
      rw [hp] at h
      obtain ⟨n, _, _, h3⟩ := pollIntrFuel_some intr fuel 0 poll hp
      simp only [Option.some.injEq] at h
      rw [← h, h3]
      simp
  · intro running intr fuel us hall
    simp [OneShotTimer.delay, pollIntrFuel_none intr hall]

/-- Witness for C7: the flag answer `true` is in a concrete terminating
trace, and with a flag that never sets, the delay does not return. -/
theorem one_shot_delay_waits_for_flag_witness :
    TimerOp.isInterruptSet true
      ∈ [TimerOp.isRunning false, TimerOp.clearInterrupt, TimerOp.reset,
          TimerOp.enableAutoReload false, TimerOp.loadValue 4,
          TimerOp.start, TimerOp.isInterruptSet true, TimerOp.stop,
          TimerOp.clearInterrupt]
    ∧ OneShotTimer.delay false (fun _ => false) 6 4 = none :=
  ⟨one_shot_delay_waits_for_flag.1 false (fun _ => true) 2 4
     [TimerOp.isRunning false, TimerOp.clearInterrupt, TimerOp.reset,
      TimerOp.enableAutoReload false, TimerOp.loadValue 4, TimerOp.start,
      TimerOp.isInterruptSet true, TimerOp.stop, TimerOp.clearInterrupt] rfl,
   one_shot_delay_waits_for_flag.2 false (fun _ => false) 6 4
     (fun _ => rfl)⟩

/-- C3 (code bug): `delay_nanos(500)` does not perform the same operation
sequence as `delay_micros(1)` — the truncating division `500 / 1000 = 0`
makes it load `0` microseconds where `delay_micros(1)` loads `1`, so the
realized wait is shorter than the requested 500 nanoseconds,
contradicting both the claim and the function's own documentation
(`Pauses execution for *at least* ns nanoseconds`). -/
theorem delay_nanos_rounds_down_below_request :
    OneShotTimer.delay_nanos false (fun _ => true) 1 500
      = some [TimerOp.isRunning false, TimerOp.clearInterrupt, TimerOp.reset,
          TimerOp.enableAutoReload false, TimerOp.loadValue 0, TimerOp.start,
          TimerOp.isInterruptSet true, TimerOp.stop, TimerOp.clearInterrupt]
    ∧ OneShotTimer.delay_micros false (fun _ => true) 1 1
      = some [TimerOp.isRunning false, TimerOp.clearInterrupt, TimerOp.reset,
          TimerOp.enableAutoReload false, TimerOp.loadValue 1, TimerOp.start,
          TimerOp.isInterruptSet true, TimerOp.stop, TimerOp.clearInterrupt]
    ∧ OneShotTimer.delay_nanos false (fun _ => true) 1 500
      ≠ OneShotTimer.delay_micros false (fun _ => true) 1 1
    ∧ (500 : Nat) / 1000 = 0 :=
  ⟨rfl, rfl, by decide, rfl⟩
